import Mathlib

/-
Verification of the polls core of Premios-Platzi-App.

The model layer is embedded from `src/premiosplatziapp/polls/models.py`:
`Question.was_published_recently` and the overridden `Question.save`.
Timestamps are integers (seconds); `timezone.now()` becomes an explicit
`now` argument; an unset field (`None`) becomes `Option.none`.

The view/store layer (index listing, detail lookup, results, voting,
deletion, creation) lives in repository files that are not part of the
provided sources, so those operations are modelled from the spec, on a
store whose two tables mirror the declared columns
`question(id, question_text, pub_date)` and
`choice(id, question_id, choice_text, votes)`.
-/

set_option maxHeartbeats 1000000
set_option maxRecDepth 8192

namespace Polls

/-- One day, in seconds: `datetime.timedelta(days=1)` in `models.py`. -/
def oneDay : Int := 86400

/-- A model-layer `Question` object, possibly not yet persisted: `pk` is
`none` before the first save, and `pub_date` is `none` while unset
(`not self.pub_date` in `Question.save`). -/
structure Question where
  question_text : String
  pub_date : Option Int
  pk : Option Nat
  deriving Repr, DecidableEq

/-- Embeds `Question.was_published_recently`:
`timezone.now() >= self.pub_date >= timezone.now() - datetime.timedelta(days=1)`,
with both `timezone.now()` calls taken at the single evaluation instant `now`.
An unset `pub_date` cannot occur on a persisted question. -/
def Question.was_published_recently (q : Question) (now : Int) : Bool :=
  match q.pub_date with
  | some d => decide (now ≥ d) && decide (d ≥ now - oneDay)
  | none => false

/-- Embeds the overridden `Question.save`: on a first save (`self.pk is None`)
with an unset `pub_date`, the field is defaulted to `timezone.now()`; then the
base save runs, which assigns a fresh primary key to a new row and rejects a
null `pub_date` (the `DateTimeField` column is NOT NULL). -/
def Question.save (q : Question) (now : Int) (freshPk : Nat) : Option Question :=
  let q1 := if q.pk = none ∧ q.pub_date = none then { q with pub_date := some now } else q
  match q1.pub_date with
  | none => none
  | some _ => some { q1 with pk := some (q1.pk.getD freshPk) }

/-- A persisted question row: `question(id, question_text, pub_date)`. -/
structure StoredQuestion where
  id : Nat
  question_text : String
  pub_date : Int
  deriving Repr, DecidableEq

/-- A persisted choice row: `choice(id, question_id, choice_text, votes)`. -/
structure StoredChoice where
  id : Nat
  question_id : Nat
  choice_text : String
  votes : Int
  deriving Repr, DecidableEq

/-- The data store: the two tables plus fresh-id counters. -/
structure Store where
  questions : List StoredQuestion
  choices : List StoredChoice
  nextQid : Nat
  nextCid : Nat
  deriving Repr, DecidableEq

/-- The error taxonomy of the spec. -/
inductive StoreError where
  | notFoundError
  | validationError
  deriving Repr, DecidableEq

/-- Modelled from the spec: `create_question(text, pub_date?)` of the data
store (the creation path of the repository is not among the provided sources).
Text longer than 200 characters fails with `ValidationError`; an omitted
`pub_date` is set to the current time; a fresh unique id is assigned. -/
def create_question (s : Store) (text : String) (pub_date : Option Int)
    (now : Int) : Except StoreError (Store × StoredQuestion) :=
  if 200 < text.length then .error .validationError
  else
    let q : StoredQuestion := ⟨s.nextQid, text, pub_date.getD now⟩
    .ok ({ s with questions := s.questions ++ [q], nextQid := s.nextQid + 1 }, q)

/-- Modelled from the spec: `create_choice(question_id, text, votes)` of the
data store. Text longer than 200 characters fails with `ValidationError`;
a `question_id` not referencing an existing question fails with
`NotFoundError`. -/
def create_choice (s : Store) (qid : Nat) (text : String) (votes : Int) :
    Except StoreError (Store × StoredChoice) :=
  if 200 < text.length then .error .validationError
  else
    match s.questions.find? (fun q => q.id == qid) with
    | none => .error .notFoundError
    | some _ =>
      let c : StoredChoice := ⟨s.nextCid, qid, text, votes⟩
      .ok ({ s with choices := s.choices ++ [c], nextCid := s.nextCid + 1 }, c)

/-- `create_choice` at the spec's default vote count `votes=0`. -/
def create_choice_default (s : Store) (qid : Nat) (text : String) :
    Except StoreError (Store × StoredChoice) :=
  create_choice s qid text 0

/-- Modelled from the spec: `get_question(id)`, failing with `NotFoundError`
if absent. -/
def get_question (s : Store) (id : Nat) : Except StoreError StoredQuestion :=
  match s.questions.find? (fun q => q.id == id) with
  | none => .error .notFoundError
  | some q => .ok q

/-- `is_visible(question, now)`: true iff `question.pub_date <= now`. -/
def is_visible (q : StoredQuestion) (now : Int) : Bool :=
  q.pub_date ≤ now

/-- Descending publication order: `a` before `b` when `a` is at least as
recent as `b`. -/
def moreRecentFirst (a b : StoredQuestion) : Prop :=
  b.pub_date ≤ a.pub_date

instance : DecidableRel moreRecentFirst :=
  fun a b => inferInstanceAs (Decidable (b.pub_date ≤ a.pub_date))

instance : IsTotal StoredQuestion moreRecentFirst :=
  ⟨fun a b => le_total b.pub_date a.pub_date⟩

instance : IsTrans StoredQuestion moreRecentFirst :=
  ⟨fun _ _ _ h1 h2 => le_trans h2 h1⟩

/-- Modelled from the spec: `list_visible_questions(now)` of the poll service
(the index view is not among the provided sources): the visible questions,
most recent first. -/
def list_visible_questions (s : Store) (now : Int) : List StoredQuestion :=
  List.insertionSort moreRecentFirst (s.questions.filter (fun q => is_visible q now))

/-- Modelled from the spec: `get_visible_question_or_not_found(id, now)` of
the poll service (the detail view is not among the provided sources): absent
and not-yet-visible questions both fail with `NotFoundError`. -/
def get_visible_question_or_not_found (s : Store) (id : Nat) (now : Int) :
    Except StoreError StoredQuestion :=
  match s.questions.find? (fun q => q.id == id) with
  | none => .error .notFoundError
  | some q => if is_visible q now then .ok q else .error .notFoundError

/-- Modelled from the spec: `results(question_id, now)` of the poll service
(the results view is not among the provided sources): the question under the
same visibility rule, with its choices in creation order. -/
def results (s : Store) (qid : Nat) (now : Int) :
    Except StoreError (StoredQuestion × List StoredChoice) :=
  match get_visible_question_or_not_found s qid now with
  | .error e => .error e
  | .ok q => .ok (q, s.choices.filter (fun c => c.question_id == qid))

/-- Modelled from the spec: `record_vote(question_id, choice_id)` of the poll
service: `NotFoundError` when the question or choice is absent or the choice
belongs to another question; on success, `votes` is incremented by 1. -/
def record_vote (s : Store) (qid cid : Nat) : Except StoreError Store :=
  match s.questions.find? (fun q => q.id == qid) with
  | none => .error .notFoundError
  | some _ =>
    match s.choices.find? (fun c => c.id == cid) with
    | none => .error .notFoundError
    | some c =>
      if c.question_id == qid then
        .ok { s with choices :=
          s.choices.map (fun c2 =>
            if c2.id == cid then { c2 with votes := c2.votes + 1 } else c2) }
      else .error .notFoundError

/-- Modelled from the spec: `save(entity)` of the data store for a choice
mutated by direct field assignment (the pattern of the repository's tests:
assign `votes`, then save): the stored row with the same id is overwritten. -/
def save_choice (s : Store) (c : StoredChoice) : Except StoreError Store :=
  if (s.choices.find? (fun c2 => c2.id == c.id)).isSome then
    .ok { s with choices := s.choices.map (fun c2 => if c2.id == c.id then c else c2) }
  else .error .notFoundError

/-- Modelled from the spec: `delete_question(id)` of the data store; the
`on_delete=models.CASCADE` declaration on `Choice.question` makes the delete
cascade to every choice referencing the question. -/
def delete_question (s : Store) (id : Nat) : Except StoreError Store :=
  match s.questions.find? (fun q => q.id == id) with
  | none => .error .notFoundError
  | some _ =>
    .ok { s with
      questions := s.questions.filter (fun q => q.id != id),
      choices := s.choices.filter (fun c => c.question_id != id) }

/-- Claim C1: `was_published_recently` is true iff
`now - 1 day ≤ pub_date ≤ now` (a closed 24-hour interval ending `now`):
false for any `pub_date` strictly before `now - 1 day` and strictly
after `now`. -/
theorem was_published_recently_iff_in_last_day (q : Question) (d now : Int)
    (h : q.pub_date = some d) :
    (q.was_published_recently now = true ↔ (now - oneDay ≤ d ∧ d ≤ now)) ∧
    (d < now - oneDay → q.was_published_recently now = false) ∧
    (now < d → q.was_published_recently now = false) := by
  simp only [Question.was_published_recently, h, Bool.and_eq_true, decide_eq_true_eq,
    Bool.and_eq_false_iff, decide_eq_false_iff_not]
  refine ⟨by omega, fun h1 => by omega, fun h2 => by omega⟩

/-- Claim C1 witness: a question published exactly one day before `now` is
recent; a question published just outside the window is not. -/
theorem was_published_recently_iff_in_last_day_witness :
    (⟨"q", some (100 - oneDay), some 1⟩ : Question).was_published_recently 100 = true ∧
    (⟨"q", some (99 - oneDay), some 1⟩ : Question).was_published_recently 100 = false := by
  constructor
  · exact (was_published_recently_iff_in_last_day ⟨"q", some (100 - oneDay), some 1⟩
      (100 - oneDay) 100 rfl).1.mpr (by decide)
  · exact (was_published_recently_iff_in_last_day ⟨"q", some (99 - oneDay), some 1⟩
      (99 - oneDay) 100 rfl).2.1 (by decide)

/-- Claim C6: on a first save (no primary key yet) an unset `pub_date` is set
to the current time; a save of an already-persisted question (primary key
present) leaves `pub_date` exactly as it was. -/
theorem save_defaults_pub_date_only_on_first_save (q : Question) (now : Int)
    (fresh : Nat) :
    (q.pk = none → q.pub_date = none →
      q.save now fresh = some { q with pub_date := some now, pk := some fresh }) ∧
    (∀ k, q.pk = some k → ∀ q', q.save now fresh = some q' →
      q'.pub_date = q.pub_date) := by
  obtain ⟨t, pd, pk⟩ := q
  constructor
  · rintro rfl rfl
    rfl
  · rintro k rfl q' hq'
    cases pd with
    | none => exact absurd hq' (by simp [Question.save])
    | some d =>
      have : q' = ⟨t, some d, some k⟩ := by
        simpa [Question.save] using hq'.symm
      simp [this]

/-- Claim C6 witness: a fresh question with unset `pub_date` saved at time 5
gets `pub_date = 5`; re-saving a persisted question keeps `pub_date = 3`. -/
theorem save_defaults_pub_date_only_on_first_save_witness :
    Question.save ⟨"q", none, none⟩ 5 1 = some ⟨"q", some 5, some 1⟩ ∧
    (⟨"r", some 3, some 7⟩ : Question).pub_date = some 3 := by
  constructor
  · exact (save_defaults_pub_date_only_on_first_save ⟨"q", none, none⟩ 5 1).1 rfl rfl
  · exact (save_defaults_pub_date_only_on_first_save ⟨"r", some 3, some 7⟩ 5 1).2
      7 rfl ⟨"r", some 3, some 7⟩ rfl

/-- Claim C10: every successful save yields a question whose `pub_date` is
set, and a new question with an unset `pub_date` saves successfully (the
field is filled in rather than the save failing). -/
theorem save_result_has_pub_date (q : Question) (now : Int) (fresh : Nat) :
    (∀ q', q.save now fresh = some q' → ∃ d, q'.pub_date = some d) ∧
    (q.pk = none → q.pub_date = none → ∃ q', q.save now fresh = some q') := by
  obtain ⟨t, pd, pk⟩ := q
  constructor
  · intro q' hq'
    cases pk with
    | none =>
      cases pd with
      | none =>
        have : q' = ⟨t, some now, some fresh⟩ := by
          simpa [Question.save] using hq'.symm
        exact ⟨now, by simp [this]⟩
      | some d =>
        have : q' = ⟨t, some d, some fresh⟩ := by
          simpa [Question.save] using hq'.symm
        exact ⟨d, by simp [this]⟩
    | some k =>
      cases pd with
      | none => exact absurd hq' (by simp [Question.save])
      | some d =>
        have : q' = ⟨t, some d, some k⟩ := by
          simpa [Question.save] using hq'.symm
        exact ⟨d, by simp [this]⟩
  · rintro rfl rfl
    exact ⟨⟨t, some now, some fresh⟩, rfl⟩

/-- Claim C10 witness: saving a fresh question with unset `pub_date` at time
5 succeeds and the saved question carries `pub_date = 5`. -/
theorem save_result_has_pub_date_witness :
    (∃ d, (⟨"q", some 5, some 1⟩ : Question).pub_date = some d) ∧
    (∃ q', Question.save ⟨"q", none, none⟩ 5 1 = some q') := by
  constructor
  · exact (save_result_has_pub_date ⟨"q", none, none⟩ 5 1).1 ⟨"q", some 5, some 1⟩ rfl
  · exact (save_result_has_pub_date ⟨"q", none, none⟩ 5 1).2 rfl rfl

/-- Claim C2: a question may persist with zero choices — saving a new
question never fails regardless of choices, and `results` for a visible
question owning no choice returns the question with the empty sequence. -/
theorem question_with_zero_choices (s : Store) (q : StoredQuestion) (now : Int)
    (mq : Question) (mnow : Int) (fresh : Nat)
    (hq : s.questions.find? (fun q2 => q2.id == q.id) = some q)
    (hv : q.pub_date ≤ now)
    (hzero : ∀ c ∈ s.choices, c.question_id ≠ q.id) :
    results s q.id now = .ok (q, []) ∧
    (mq.pk = none → ∃ mq', mq.save mnow fresh = some mq') := by
  constructor
  · have hfil : s.choices.filter (fun c => c.question_id == q.id) = [] := by
      rw [List.filter_eq_nil_iff]
      intro c hc
      simpa using hzero c hc
    simp [results, get_visible_question_or_not_found, hq, is_visible, hv, hfil]
  · intro hpk
    obtain ⟨t, pd, pk⟩ := mq
    cases pd with
    | none =>
      cases hpk
      exact ⟨⟨t, some mnow, some fresh⟩, rfl⟩
    | some d =>
      cases hpk
      exact ⟨⟨t, some d, some fresh⟩, rfl⟩

/-- Claim C2 witness: a store holding one visible question and no choices:
`results` returns the question with `[]`, and a fresh model question saves. -/
theorem question_with_zero_choices_witness :
    results ⟨[⟨1, "q", 10⟩], [], 2, 1⟩ 1 50 = .ok (⟨1, "q", 10⟩, []) ∧
    (∃ mq', Question.save ⟨"m", some 3, none⟩ 4 9 = some mq') := by
  have h := question_with_zero_choices ⟨[⟨1, "q", 10⟩], [], 2, 1⟩ ⟨1, "q", 10⟩ 50
    ⟨"m", some 3, none⟩ 4 9 (by decide) (by decide) (by simp)
  exact ⟨h.1, h.2 rfl⟩

/-- Claim C4: `list_visible_questions` includes every stored question with
`pub_date ≤ now`, excludes every one with `pub_date > now`, is sorted most
recent first, and is empty when no question is visible. -/
theorem list_visible_questions_spec (s : Store) (now : Int) :
    (∀ q ∈ s.questions, q.pub_date ≤ now → q ∈ list_visible_questions s now) ∧
    (∀ q ∈ list_visible_questions s now, q ∈ s.questions ∧ q.pub_date ≤ now) ∧
    (list_visible_questions s now).Sorted moreRecentFirst ∧
    ((∀ q ∈ s.questions, now < q.pub_date) → list_visible_questions s now = []) := by
  refine ⟨?_, ?_, ?_, ?_⟩
  · intro q hq hv
    simp only [list_visible_questions, List.mem_insertionSort, List.mem_filter]
    exact ⟨hq, by simpa [is_visible] using hv⟩
  · intro q hq
    simp only [list_visible_questions, List.mem_insertionSort, List.mem_filter] at hq
    exact ⟨hq.1, by simpa [is_visible] using hq.2⟩
  · exact List.sorted_insertionSort moreRecentFirst _
  · intro hall
    have hfil : s.questions.filter (fun q => is_visible q now) = [] := by
      rw [List.filter_eq_nil_iff]
      intro q hq
      simp only [is_visible, decide_eq_true_eq, not_le]
      exact hall q hq
    simp [list_visible_questions, hfil, List.insertionSort]

/-- Claim C4 witness: with one past and one future question at `now = 100`,
the listing contains the past question; with only future questions it is
empty. -/
theorem list_visible_questions_spec_witness :
    (⟨1, "past", 10⟩ : StoredQuestion) ∈
      list_visible_questions ⟨[⟨1, "past", 10⟩, ⟨2, "future", 200⟩], [], 3, 1⟩ 100 ∧
    list_visible_questions ⟨[⟨2, "future", 200⟩], [], 3, 1⟩ 100 = [] := by
  constructor
  · exact (list_visible_questions_spec ⟨[⟨1, "past", 10⟩, ⟨2, "future", 200⟩], [], 3, 1⟩
      100).1 ⟨1, "past", 10⟩ (by simp) (by decide)
  · exact (list_visible_questions_spec ⟨[⟨2, "future", 200⟩], [], 3, 1⟩ 100).2.2.2
      (by simp)

/-- Claim C5: assuming stored ids are unique, the detail lookup fails with
`NotFoundError` exactly when no question carries the id or the question
carrying it has a future `pub_date`; in every other case it returns the
question. Both failure causes produce the same error value. -/
theorem get_visible_question_or_not_found_spec (s : Store) (id : Nat) (now : Int)
    (hu : (s.questions.map (fun q => q.id)).Nodup) :
    (get_visible_question_or_not_found s id now = .error .notFoundError ↔
      ((∀ q ∈ s.questions, q.id ≠ id) ∨
        (∃ q ∈ s.questions, q.id = id ∧ now < q.pub_date))) ∧
    (∀ q ∈ s.questions, q.id = id → q.pub_date ≤ now →
      get_visible_question_or_not_found s id now = .ok q) := by
  cases hf : s.questions.find? (fun q => q.id == id) with
  | none =>
    have habs : ∀ q ∈ s.questions, q.id ≠ id := by
      intro q hq
      have := List.find?_eq_none.mp hf q hq
      simpa using this
    constructor
    · simp only [get_visible_question_or_not_found, hf]
      exact ⟨fun _ => Or.inl habs, fun _ => by trivial⟩
    · intro q hq hid _
      exact absurd hid (habs q hq)
  | some q0 =>
    have hq0mem : q0 ∈ s.questions := List.mem_of_find?_eq_some hf
    have hq0id : q0.id = id := by
      have := List.find?_some hf
      simpa using this
    have huniq : ∀ q ∈ s.questions, q.id = id → q = q0 := by
      intro q hq hid
      exact List.inj_on_of_nodup_map hu hq hq0mem (by rw [hid, hq0id])
    constructor
    · simp only [get_visible_question_or_not_found, hf]
      by_cases hvis : q0.pub_date ≤ now
      · rw [if_pos (by simpa [is_visible] using hvis)]
        constructor
        · intro h
          exact absurd h (by simp)
        · rintro (habs | ⟨q, hq, hid, hfut⟩)
          · exact absurd hq0id (habs q0 hq0mem)
          · rw [huniq q hq hid] at hfut
            exact absurd hvis (not_le.mpr hfut)
      · rw [if_neg (by simpa [is_visible] using hvis)]
        exact ⟨fun _ => Or.inr ⟨q0, hq0mem, hq0id, not_le.mp hvis⟩, fun _ => by trivial⟩
    · intro q hq hid hvis
      have hqq0 : q = q0 := huniq q hq hid
      subst hqq0
      simp [get_visible_question_or_not_found, hf, is_visible, hvis]

/-- Claim C5 witness: at `now = 100`, an absent id and a future question both
yield `NotFoundError`, while a visible question is returned. -/
theorem get_visible_question_or_not_found_spec_witness :
    get_visible_question_or_not_found ⟨[⟨1, "past", 10⟩, ⟨2, "future", 200⟩], [], 3, 1⟩
      5 100 = .error .notFoundError ∧
    get_visible_question_or_not_found ⟨[⟨1, "past", 10⟩, ⟨2, "future", 200⟩], [], 3, 1⟩
      2 100 = .error .notFoundError ∧
    get_visible_question_or_not_found ⟨[⟨1, "past", 10⟩, ⟨2, "future", 200⟩], [], 3, 1⟩
      1 100 = .ok ⟨1, "past", 10⟩ := by
  refine ⟨?_, ?_, ?_⟩
  · exact (get_visible_question_or_not_found_spec
      ⟨[⟨1, "past", 10⟩, ⟨2, "future", 200⟩], [], 3, 1⟩ 5 100 (by decide)).1.mpr
      (Or.inl (by decide))
  · exact (get_visible_question_or_not_found_spec
      ⟨[⟨1, "past", 10⟩, ⟨2, "future", 200⟩], [], 3, 1⟩ 2 100 (by decide)).1.mpr
      (Or.inr ⟨⟨2, "future", 200⟩, by simp, rfl, by decide⟩)
  · exact (get_visible_question_or_not_found_spec
      ⟨[⟨1, "past", 10⟩, ⟨2, "future", 200⟩], [], 3, 1⟩ 1 100 (by decide)).2
      ⟨1, "past", 10⟩ (by simp) rfl (by decide)

/-- Claim C7 counterexample: the store enforces no lower bound on `votes`
(the column is a plain integer field). Overwriting a stored choice with a
directly assigned `votes = -1` succeeds, reaching a state whose only choice
has a negative vote count. -/
theorem votes_nonneg_counterexample :
    save_choice ⟨[⟨1, "q", 0⟩], [⟨1, 1, "c", 0⟩], 2, 2⟩ ⟨1, 1, "c", -1⟩ =
      .ok ⟨[⟨1, "q", 0⟩], [⟨1, 1, "c", -1⟩], 2, 2⟩ ∧
    (⟨1, 1, "c", -1⟩ : StoredChoice).votes < 0 :=
  ⟨rfl, by decide⟩

/-- Claim C7 amended: a choice created with the default vote count has
`votes = 0`, and `record_vote` preserves non-negativity of every stored vote
count; the store itself does not forbid a negative value written by direct
field assignment. -/
theorem votes_default_zero_and_vote_preserves_nonneg (s s' : Store)
    (qid cid : Nat) (text : String) (sc : Store × StoredChoice) :
    (create_choice_default s qid text = .ok sc → sc.2.votes = 0) ∧
    (record_vote s qid cid = .ok s' → (∀ c ∈ s.choices, 0 ≤ c.votes) →
      ∀ c ∈ s'.choices, 0 ≤ c.votes) := by
  constructor
  · intro h
    unfold create_choice_default create_choice at h
    split at h
    · exact Except.noConfusion h
    · split at h
      · exact Except.noConfusion h
      · simp only [Except.ok.injEq] at h
        rw [← h]
  · intro h hpos c hc
    unfold record_vote at h
    split at h
    · exact Except.noConfusion h
    · split at h
      · exact Except.noConfusion h
      · split at h
        · simp only [Except.ok.injEq] at h
          rw [← h] at hc
          simp only [List.mem_map] at hc
          obtain ⟨a, ha, hac⟩ := hc
          have hpa := hpos a ha
          by_cases hid : (a.id == cid) = true
          · rw [if_pos hid] at hac
            rw [← hac]
            show 0 ≤ a.votes + 1
            omega
          · rw [if_neg hid] at hac
            rw [← hac]
            exact hpa
        · exact Except.noConfusion h

/-- Claim C7 amended witness: creating a default choice on an existing
question yields `votes = 0`, and after one vote on a store whose counts are
non-negative, every count is still non-negative. -/
theorem votes_default_zero_and_vote_preserves_nonneg_witness :
    (((⟨2, 1, "c2", 0⟩ : StoredChoice)).votes = 0) ∧
    (∀ c ∈ (⟨[⟨1, "q", 0⟩], [⟨1, 1, "c", 1⟩], 2, 2⟩ : Store).choices, 0 ≤ c.votes) := by
  constructor
  · exact (votes_default_zero_and_vote_preserves_nonneg ⟨[⟨1, "q", 0⟩], [], 2, 2⟩
      ⟨[⟨1, "q", 0⟩], [⟨2, 1, "c2", 0⟩], 2, 3⟩ 1 1 "c2"
      (⟨[⟨1, "q", 0⟩], [⟨2, 1, "c2", 0⟩], 2, 3⟩, ⟨2, 1, "c2", 0⟩)).1 rfl
  · exact (votes_default_zero_and_vote_preserves_nonneg ⟨[⟨1, "q", 0⟩], [⟨1, 1, "c", 0⟩], 2, 2⟩
      ⟨[⟨1, "q", 0⟩], [⟨1, 1, "c", 1⟩], 2, 2⟩ 1 1 "c2"
      (⟨[⟨1, "q", 0⟩], [⟨2, 1, "c2", 0⟩], 2, 3⟩, ⟨2, 1, "c2", 0⟩)).2 rfl
      (by decide)

/-- Claim C8: when `delete_question` succeeds, the question with the given id
and every choice referencing it are gone, every other question and choice is
retained, and nothing new appears. -/
theorem delete_question_cascades (s : Store) (id : Nat) (s' : Store)
    (h : delete_question s id = .ok s') :
    (∀ q ∈ s'.questions, q.id ≠ id) ∧
    (∀ c ∈ s'.choices, c.question_id ≠ id) ∧
    (∀ q ∈ s.questions, q.id ≠ id → q ∈ s'.questions) ∧
    (∀ q ∈ s'.questions, q ∈ s.questions) ∧
    (∀ c ∈ s.choices, c.question_id ≠ id → c ∈ s'.choices) ∧
    (∀ c ∈ s'.choices, c ∈ s.choices) := by
  unfold delete_question at h
  split at h
  · exact Except.noConfusion h
  · simp only [Except.ok.injEq] at h
    subst h
    refine ⟨?_, ?_, ?_, ?_, ?_, ?_⟩
    · intro q hq
      have := (List.mem_filter.mp hq).2
      simpa using this
    · intro c hc
      have := (List.mem_filter.mp hc).2
      simpa using this
    · intro q hq hne
      exact List.mem_filter.mpr ⟨hq, by simpa using hne⟩
    · intro q hq
      exact (List.mem_filter.mp hq).1
    · intro c hc hne
      exact List.mem_filter.mpr ⟨hc, by simpa using hne⟩
    · intro c hc
      exact (List.mem_filter.mp hc).1

/-- Claim C8 witness: deleting question 1 removes it and its choice, keeps
question 2 and its choice. -/
theorem delete_question_cascades_witness :
    ((⟨2, "q2", 0⟩ : StoredQuestion) ∈
      (⟨[⟨2, "q2", 0⟩], [⟨2, 2, "c2", 0⟩], 3, 3⟩ : Store).questions) ∧
    ((⟨2, 2, "c2", 0⟩ : StoredChoice) ∈
      (⟨[⟨2, "q2", 0⟩], [⟨2, 2, "c2", 0⟩], 3, 3⟩ : Store).choices) ∧
    (∀ c ∈ (⟨[⟨2, "q2", 0⟩], [⟨2, 2, "c2", 0⟩], 3, 3⟩ : Store).choices,
      c.question_id ≠ 1) := by
  have h := delete_question_cascades
    ⟨[⟨1, "q1", 0⟩, ⟨2, "q2", 0⟩], [⟨1, 1, "c1", 0⟩, ⟨2, 2, "c2", 0⟩], 3, 3⟩ 1
    ⟨[⟨2, "q2", 0⟩], [⟨2, 2, "c2", 0⟩], 3, 3⟩ rfl
  exact ⟨h.2.2.1 ⟨2, "q2", 0⟩ (by simp) (by decide),
    h.2.2.2.2.1 ⟨2, 2, "c2", 0⟩ (by simp) (by decide),
    h.2.1⟩

/-- Claim C9: creating a question or a choice with text longer than 200
characters fails with `ValidationError` at construction; text within the
bound is accepted (for a choice, on an existing question). -/
theorem text_length_validation_spec (s : Store) (text : String) (pd : Option Int)
    (now : Int) (qid : Nat) (votes : Int) :
    (200 < text.length → create_question s text pd now = .error .validationError) ∧
    (text.length ≤ 200 → ∃ s2 q, create_question s text pd now = .ok (s2, q)) ∧
    (200 < text.length → create_choice s qid text votes = .error .validationError) ∧
    (text.length ≤ 200 → (∃ q ∈ s.questions, q.id = qid) →
      ∃ s2 c, create_choice s qid text votes = .ok (s2, c)) := by
  refine ⟨?_, ?_, ?_, ?_⟩
  · intro hlen
    simp [create_question, hlen]
  · intro hlen
    unfold create_question
    rw [if_neg (not_lt.mpr hlen)]
    exact ⟨_, _, rfl⟩
  · intro hlen
    simp [create_choice, hlen]
  · intro hlen hex
    cases hf : s.questions.find? (fun q => q.id == qid) with
    | none =>
      obtain ⟨q, hq, hid⟩ := hex
      have := List.find?_eq_none.mp hf q hq
      exact absurd (by simpa using hid) this
    | some q0 =>
      unfold create_choice
      rw [if_neg (not_lt.mpr hlen), hf]
      exact ⟨_, _, rfl⟩

/-- Claim C9 witness: a 201-character text is rejected with
`ValidationError`; a short text is accepted for both a question and a choice
on an existing question. -/
theorem text_length_validation_spec_witness :
    create_question ⟨[], [], 1, 1⟩ (String.mk (List.replicate 201 'a')) none 0 =
      .error .validationError ∧
    (∃ s2 q, create_question ⟨[], [], 1, 1⟩ "ok" none 0 = .ok (s2, q)) ∧
    (∃ s2 c, create_choice ⟨[⟨1, "q", 0⟩], [], 2, 1⟩ 1 "ok" 0 = .ok (s2, c)) := by
  refine ⟨?_, ?_, ?_⟩
  · exact (text_length_validation_spec ⟨[], [], 1, 1⟩
      (String.mk (List.replicate 201 'a')) none 0 1 0).1 (by decide)
  · exact (text_length_validation_spec ⟨[], [], 1, 1⟩ "ok" none 0 1 0).2.1 (by decide)
  · exact (text_length_validation_spec ⟨[⟨1, "q", 0⟩], [], 2, 1⟩ "ok" none 0 1 0).2.2.2
      (by decide) ⟨⟨1, "q", 0⟩, by simp, rfl⟩

end Polls
